import Mathlib

/-!
# Paging scraper (non-Windows): shallow embedding

Embedding of
`receiver/hostmetricsreceiver/internal/scraper/pagingscraper/paging_scraper_others.go`.

* Go `uint64` values are `Nat` (well-formed when `< 2 ^ 64`); `uint64` arithmetic is
  written with an explicit `% 2 ^ 64`; the conversion `int64(x)` is `int64`.
* A Go call returning `(T, error)` is an `Except error T`.
* The pointer receiver `s *scraper` and the shared `pdata.MetricSlice` are threaded
  through the functions explicitly (state passing).
* `time.Now()` is an input of each sub-scrape: the reading it obtained.
-/

namespace pagingscraper

/-! ## Machine integers -/

/-- Go conversion `int64(x)` of a `uint64` value `x`: two's-complement reinterpretation. -/
def int64 (x : Nat) : Int :=
  if x % 2 ^ 64 < 2 ^ 63 then ((x % 2 ^ 64 : Nat) : Int) else ((x % 2 ^ 64 : Nat) : Int) - 2 ^ 64

/-- Go `a - b` on `uint64` operands: subtraction modulo `2 ^ 64`. -/
def uint64Sub (a b : Nat) : Nat :=
  (a % 2 ^ 64 + (2 ^ 64 - b % 2 ^ 64)) % 2 ^ 64

/-- Go `a * b` on `uint64` operands: multiplication modulo `2 ^ 64`. -/
def uint64Mul (a b : Nat) : Nat :=
  (a * b) % 2 ^ 64

/-- Go conversion `uint64(x)` of an `int64` value `x`. -/
def uint64OfInt64 (x : Int) : Nat :=
  (x % 2 ^ 64).toNat

/-! ## Collaborator types (not defined in the embedded file) -/

/-- Modelled from the spec: a Go `error` value returned by a provider. The embedded
file never inspects a provider error, it only passes it on; it is identified here by
its message. -/
structure error where
  msg : String
deriving DecidableEq

/-- Modelled from the spec: `pdata.Timestamp`, unsigned 64-bit nanoseconds since the
Unix epoch. -/
abbrev Timestamp := Nat

/-- Modelled from the spec: a reading of `time.Now()`, given by its `UnixNano()` value
(a signed 64-bit count of nanoseconds). -/
structure Time where
  UnixNano : Int
deriving DecidableEq

/-- Modelled from the spec: `pdata.NewTimestampFromTime`, the `uint64` conversion of
the reading's `UnixNano()`. -/
def NewTimestampFromTime (t : Time) : Timestamp :=
  uint64OfInt64 t.UnixNano

/-- Modelled from the spec: `pdata.AttributeMap`, a string-keyed collection of labels,
unique per key, kept in insertion order. -/
abbrev AttributeMap := List (String × String)

/-- Modelled from the spec: `AttributeMap.InsertString`, which adds the entry when the
key is not yet present and does nothing when it is. -/
def AttributeMap.InsertString (m : AttributeMap) (k v : String) : AttributeMap :=
  if m.any (fun kv => kv.1 == k) then m else m ++ [(k, v)]

/-- Modelled from the spec: `pdata.NumberDataPoint`, a (timestamp, value) pair with its
attributes and a start timestamp; the value is a signed 64-bit integer. -/
structure NumberDataPoint where
  attributes : AttributeMap
  startTimestamp : Timestamp
  timestamp : Timestamp
  intVal : Int
deriving DecidableEq

/-- Modelled from the spec: the data point that `AppendEmpty` adds to a data point
slice: no attributes, both timestamps zero, value zero. -/
def NumberDataPoint.empty : NumberDataPoint :=
  { attributes := [], startTimestamp := 0, timestamp := 0, intVal := 0 }

/-- Modelled from the spec: the semantic type of a metric; `Init` of the three paging
metrics selects a sum. -/
inductive MetricDataType where
  | None
  | Sum
deriving DecidableEq

/-- Modelled from the spec: `pdata.Metric`, identified by its name and semantic type,
owning an ordered collection of data points. -/
structure Metric where
  name : String
  dataType : MetricDataType
  dataPoints : List NumberDataPoint
deriving DecidableEq

/-- Modelled from the spec: the metric that `AppendEmpty` adds to a metric slice. -/
def Metric.empty : Metric :=
  { name := "", dataType := MetricDataType.None, dataPoints := [] }

/-- Modelled from the spec: `pdata.MetricSlice`, the ordered metric collection. -/
abbrev MetricSlice := List Metric

/-- Modelled from the spec: `pdata.NewMetricSlice`. -/
def NewMetricSlice : MetricSlice := []

/-- Modelled from the spec: `EnsureCapacity` on a metric slice reserves room and
leaves the contents as they are. -/
def MetricSlice.EnsureCapacity (ms : MetricSlice) (_newCap : Nat) : MetricSlice := ms

/-- Modelled from the spec: `EnsureCapacity` on a data point slice reserves room and
leaves the contents as they are. -/
def NumberDataPointSlice.EnsureCapacity (dps : List NumberDataPoint) (_newCap : Nat) :
    List NumberDataPoint := dps

/-- Modelled from the spec: one entry of the page-file provider's result
(`deviceName`, `usedBytes`, `freeBytes`, optional `cachedBytes`). -/
structure pageFileStats where
  deviceName : String
  usedBytes : Nat
  freeBytes : Nat
  cachedBytes : Option Nat
deriving DecidableEq

/-- Modelled from the spec: the swap provider's result, `mem.SwapMemoryStat`, with the
six `uint64` counters the scraper reads. -/
structure SwapMemoryStat where
  Sin : Nat
  Sout : Nat
  PgIn : Nat
  PgOut : Nat
  PgFault : Nat
  PgMajFault : Nat
deriving DecidableEq

/-- Every counter of a swap-stats value is a `uint64`. -/
def SwapMemoryStat.wf (swap : SwapMemoryStat) : Prop :=
  swap.Sin < 2 ^ 64 ∧ swap.Sout < 2 ^ 64 ∧ swap.PgIn < 2 ^ 64 ∧ swap.PgOut < 2 ^ 64 ∧
    swap.PgFault < 2 ^ 64 ∧ swap.PgMajFault < 2 ^ 64

/-- Modelled from the spec: the scraper's read-only configuration, which the embedded
file stores and never reads; `id` stands for its content. -/
structure Config where
  id : Nat
deriving DecidableEq

/-! ## Generated metadata (package `internal/metadata`, not in the embedded file) -/

namespace metadata

/-- Modelled from the spec: `metadata.Labels.Device`, the device label key. -/
def Labels.Device : String := "device"
/-- Modelled from the spec: `metadata.Labels.Direction`, the direction label key. -/
def Labels.Direction : String := "direction"
/-- Modelled from the spec: `metadata.Labels.State`, the state label key. -/
def Labels.State : String := "state"
/-- Modelled from the spec: `metadata.Labels.Type`, the type label key. -/
def Labels.Type : String := "type"

/-- Modelled from the spec: `metadata.LabelState.Used`. -/
def LabelState.Used : String := "used"
/-- Modelled from the spec: `metadata.LabelState.Free`. -/
def LabelState.Free : String := "free"
/-- Modelled from the spec: `metadata.LabelState.Cached`. -/
def LabelState.Cached : String := "cached"

/-- Modelled from the spec: `metadata.LabelType.Major`. -/
def LabelType.Major : String := "major"
/-- Modelled from the spec: `metadata.LabelType.Minor`. -/
def LabelType.Minor : String := "minor"

/-- Modelled from the spec: `metadata.LabelDirection.PageIn`. -/
def LabelDirection.PageIn : String := "page_in"
/-- Modelled from the spec: `metadata.LabelDirection.PageOut`. -/
def LabelDirection.PageOut : String := "page_out"

/-- Modelled from the spec: `metadata.Metrics.SystemPagingUsage.Init`, which names the
metric "paging usage" and makes it a sum. -/
def Metrics.SystemPagingUsage.Init (metric : Metric) : Metric :=
  { metric with name := "paging usage", dataType := MetricDataType.Sum }

/-- Modelled from the spec: `metadata.Metrics.SystemPagingOperations.Init`, which names
the metric "paging operations" and makes it a sum. -/
def Metrics.SystemPagingOperations.Init (metric : Metric) : Metric :=
  { metric with name := "paging operations", dataType := MetricDataType.Sum }

/-- Modelled from the spec: `metadata.Metrics.SystemPagingFaults.Init`, which names the
metric "page faults" and makes it a sum. -/
def Metrics.SystemPagingFaults.Init (metric : Metric) : Metric :=
  { metric with name := "page faults", dataType := MetricDataType.Sum }

end metadata

/-! ## Aggregate scrape error (package `scrapererror`, not in the embedded file) -/

namespace scrapererror

/-- Modelled from the spec: a partial failure, an error tagged with the count `Failed`
of what could not be produced because of it. -/
structure PartialScrapeError where
  err : error
  Failed : Int
deriving DecidableEq

/-- Modelled from the spec: `scrapererror.ScrapeErrors`, the accumulator of partial
failures; its zero value holds none. -/
structure ScrapeErrors where
  errs : List PartialScrapeError
  failedScrapeCount : Int
deriving DecidableEq

/-- Modelled from the spec: the zero value of `ScrapeErrors` (`var errors ScrapeErrors`). -/
def ScrapeErrors.zero : ScrapeErrors :=
  { errs := [], failedScrapeCount := 0 }

/-- Modelled from the spec: `ScrapeErrors.AddPartial`, which appends one partial
failure with its count and adds the count to the running total. -/
def ScrapeErrors.AddPartial (s : ScrapeErrors) (failed : Int) (err : error) : ScrapeErrors :=
  { errs := s.errs ++ [{ err := err, Failed := failed }],
    failedScrapeCount := s.failedScrapeCount + failed }

/-- Modelled from the spec: the non-empty aggregate error: the recorded failures in
order (one: a single failure; several: a multi-failure summary) and the total failed
count. -/
structure CombinedError where
  errs : List PartialScrapeError
  Failed : Int
deriving DecidableEq

/-- Modelled from the spec: `ScrapeErrors.Combine`, which gives no error when nothing
was recorded and otherwise the aggregate of the recorded failures. -/
def ScrapeErrors.Combine (s : ScrapeErrors) : Option CombinedError :=
  match s.errs with
  | [] => none
  | e :: es => some { errs := e :: es, Failed := s.failedScrapeCount }

end scrapererror

/-! ## The embedded file -/

/-- Source constant `pagingUsageMetricsLen`. -/
def pagingUsageMetricsLen : Nat := 1

/-- Source constant `pagingMetricsLen`. -/
def pagingMetricsLen : Nat := 2

/-- Source type `scraper`: configuration, reference start time and the three
provider functions. A provider function is given by the outcome of calling it. -/
structure scraper where
  config : Config
  startTime : Timestamp
  bootTime : Unit → Except error Nat
  getPageFileStats : Unit → Except error (List pageFileStats)
  swapMemory : Unit → Except error SwapMemoryStat

/-- Source method `scraper.start`: the scraper after the call and the returned error. -/
def scraper.start (s : scraper) : scraper × Option error :=
  match s.bootTime () with
  | .error err => (s, some err)
  | .ok bootTime => ({ s with startTime := uint64Mul bootTime 1000000000 }, none)

/-- Source function `initializePagingUsageDataPoint`. -/
def initializePagingUsageDataPoint (dataPoint : NumberDataPoint) (now : Timestamp)
    (deviceLabel stateLabel : String) (value : Int) : NumberDataPoint :=
  let dataPoint :=
    if deviceLabel ≠ "" then
      { dataPoint with
        attributes := dataPoint.attributes.InsertString metadata.Labels.Device deviceLabel }
    else dataPoint
  let dataPoint :=
    { dataPoint with
      attributes := dataPoint.attributes.InsertString metadata.Labels.State stateLabel }
  let dataPoint := { dataPoint with timestamp := now }
  { dataPoint with intVal := value }

/-- Body of the `for` loop of `initializePagingUsageMetric` for one page file. -/
def initializePagingUsageMetric.loopBody (now : Timestamp) (idps : List NumberDataPoint)
    (pageFile : pageFileStats) : List NumberDataPoint :=
  let idps := idps ++ [initializePagingUsageDataPoint NumberDataPoint.empty now
    pageFile.deviceName metadata.LabelState.Used (int64 pageFile.usedBytes)]
  let idps := idps ++ [initializePagingUsageDataPoint NumberDataPoint.empty now
    pageFile.deviceName metadata.LabelState.Free (int64 pageFile.freeBytes)]
  match pageFile.cachedBytes with
  | some cachedBytes =>
    idps ++ [initializePagingUsageDataPoint NumberDataPoint.empty now
      pageFile.deviceName metadata.LabelState.Cached (int64 cachedBytes)]
  | none => idps

/-- Source function `initializePagingUsageMetric`. -/
def initializePagingUsageMetric (metric : Metric) (now : Timestamp)
    (pageFileStats : List pageFileStats) : Metric :=
  let metric := metadata.Metrics.SystemPagingUsage.Init metric
  let idps := NumberDataPointSlice.EnsureCapacity metric.dataPoints 3
  let idps := pageFileStats.foldl (initializePagingUsageMetric.loopBody now) idps
  { metric with dataPoints := idps }

/-- Source method `scraper.scrapeAndAppendPagingUsageMetric`; `t` is its `time.Now()`. -/
def scraper.scrapeAndAppendPagingUsageMetric (s : scraper) (t : Time) (metrics : MetricSlice) :
    scraper × MetricSlice × Option error :=
  let now := NewTimestampFromTime t
  match s.getPageFileStats () with
  | .error err => (s, metrics, some err)
  | .ok pageFileStats =>
    let idx := metrics.length
    let metrics := MetricSlice.EnsureCapacity metrics (idx + pagingUsageMetricsLen)
    let metrics := metrics ++ [initializePagingUsageMetric Metric.empty now pageFileStats]
    (s, metrics, none)

/-- Source function `initializePagingOperationsDataPoint`. -/
def initializePagingOperationsDataPoint (dataPoint : NumberDataPoint)
    (startTime now : Timestamp) (typeLabel directionLabel : String) (value : Int) :
    NumberDataPoint :=
  let attributes := dataPoint.attributes
  let attributes := attributes.InsertString metadata.Labels.Type typeLabel
  let attributes := attributes.InsertString metadata.Labels.Direction directionLabel
  let dataPoint := { dataPoint with attributes := attributes }
  let dataPoint := { dataPoint with startTimestamp := startTime }
  let dataPoint := { dataPoint with timestamp := now }
  { dataPoint with intVal := value }

/-- Source function `initializePagingOperationsMetric`. -/
def initializePagingOperationsMetric (metric : Metric) (startTime now : Timestamp)
    (swap : SwapMemoryStat) : Metric :=
  let metric := metadata.Metrics.SystemPagingOperations.Init metric
  let idps := NumberDataPointSlice.EnsureCapacity metric.dataPoints 4
  let idps := idps ++ [initializePagingOperationsDataPoint NumberDataPoint.empty startTime now
    metadata.LabelType.Major metadata.LabelDirection.PageIn (int64 swap.Sin)]
  let idps := idps ++ [initializePagingOperationsDataPoint NumberDataPoint.empty startTime now
    metadata.LabelType.Major metadata.LabelDirection.PageOut (int64 swap.Sout)]
  let idps := idps ++ [initializePagingOperationsDataPoint NumberDataPoint.empty startTime now
    metadata.LabelType.Minor metadata.LabelDirection.PageIn (int64 swap.PgIn)]
  let idps := idps ++ [initializePagingOperationsDataPoint NumberDataPoint.empty startTime now
    metadata.LabelType.Minor metadata.LabelDirection.PageOut (int64 swap.PgOut)]
  { metric with dataPoints := idps }

/-- Source function `initializePageFaultDataPoint`. -/
def initializePageFaultDataPoint (dataPoint : NumberDataPoint) (startTime now : Timestamp)
    (typeLabel : String) (value : Int) : NumberDataPoint :=
  let dataPoint :=
    { dataPoint with
      attributes := dataPoint.attributes.InsertString metadata.Labels.Type typeLabel }
  let dataPoint := { dataPoint with startTimestamp := startTime }
  let dataPoint := { dataPoint with timestamp := now }
  { dataPoint with intVal := value }

/-- Source function `initializePageFaultsMetric`. -/
def initializePageFaultsMetric (metric : Metric) (startTime now : Timestamp)
    (swap : SwapMemoryStat) : Metric :=
  let metric := metadata.Metrics.SystemPagingFaults.Init metric
  let idps := NumberDataPointSlice.EnsureCapacity metric.dataPoints 2
  let idps := idps ++ [initializePageFaultDataPoint NumberDataPoint.empty startTime now
    metadata.LabelType.Major (int64 swap.PgMajFault)]
  let idps := idps ++ [initializePageFaultDataPoint NumberDataPoint.empty startTime now
    metadata.LabelType.Minor (int64 (uint64Sub swap.PgFault swap.PgMajFault))]
  { metric with dataPoints := idps }

/-- Source method `scraper.scrapeAndAppendPagingMetrics`; `t` is its `time.Now()`. -/
def scraper.scrapeAndAppendPagingMetrics (s : scraper) (t : Time) (metrics : MetricSlice) :
    scraper × MetricSlice × Option error :=
  let now := NewTimestampFromTime t
  match s.swapMemory () with
  | .error err => (s, metrics, some err)
  | .ok swap =>
    let idx := metrics.length
    let metrics := MetricSlice.EnsureCapacity metrics (idx + pagingMetricsLen)
    let metrics := metrics ++ [initializePagingOperationsMetric Metric.empty s.startTime now swap]
    let metrics := metrics ++ [initializePageFaultsMetric Metric.empty s.startTime now swap]
    (s, metrics, none)

/-- What one call of `scraper.scrape` leaves behind: the scraper after the call, the
returned metric slice, the returned error, and the `ScrapeErrors` accumulator from
which the error was combined. -/
structure scrapeResult where
  s : scraper
  metrics : MetricSlice
  err : Option scrapererror.CombinedError
  errors : scrapererror.ScrapeErrors

/-- Source method `scraper.scrape`; `t₁` and `t₂` are the `time.Now()` readings of the
usage sub-scrape and of the paging sub-scrape. -/
def scraper.scrape (s : scraper) (t₁ t₂ : Time) : scrapeResult :=
  let metrics := NewMetricSlice
  let errors := scrapererror.ScrapeErrors.zero
  let (s, metrics, err) := s.scrapeAndAppendPagingUsageMetric t₁ metrics
  let errors :=
    match err with
    | some err => errors.AddPartial pagingUsageMetricsLen err
    | none => errors
  let (s, metrics, err) := s.scrapeAndAppendPagingMetrics t₂ metrics
  let errors :=
    match err with
    | some err => errors.AddPartial pagingMetricsLen err
    | none => errors
  { s := s, metrics := metrics, err := errors.Combine, errors := errors }

/-! ## Concrete inputs -/

/-- The swap-stats value of the worked example. -/
def fixture.swap : SwapMemoryStat :=
  { Sin := 1, Sout := 2, PgIn := 3, PgOut := 4, PgFault := 10, PgMajFault := 4 }

/-- The page-file stats of the worked example: one device without a cached value. -/
def fixture.pageFiles : List pageFileStats :=
  [{ deviceName := "/dev/sda1", usedBytes := 100, freeBytes := 50, cachedBytes := none }]

/-- A scraper with start time `5 * 10 ^ 9` whose page-file and swap providers have the
given outcomes. -/
def fixture.scraperWith (pf : Except error (List pageFileStats))
    (sw : Except error SwapMemoryStat) : scraper :=
  { config := { id := 0 }, startTime := 5000000000, bootTime := fun _ => .ok 5,
    getPageFileStats := fun _ => pf, swapMemory := fun _ => sw }

/-! ## Observations and spec-side definitions -/

/-- The scraper left behind by a run of scrapes, one per pair of clock readings, each
scrape starting from the scraper the previous one left. -/
def scraper.afterScrapes (s : scraper) (ts : List (Time × Time)) : scraper :=
  ts.foldl (fun s t => (s.scrape t.1 t.2).s) s

/-- Spec side, usage metric: the labels of one usage point, the device name only if it
is not empty, then the state label. -/
def usagePointAttributesSpec (deviceName stateLabel : String) : AttributeMap :=
  (if deviceName = "" then [] else [("device", deviceName)]) ++ [("state", stateLabel)]

/-- Spec side, usage metric: the labels of the points of one device entry, used and
free always and cached only when cache data was reported. -/
def usageDeviceAttributesSpec (pageFile : pageFileStats) : List AttributeMap :=
  [usagePointAttributesSpec pageFile.deviceName "used",
    usagePointAttributesSpec pageFile.deviceName "free"] ++
  (if pageFile.cachedBytes.isSome then [usagePointAttributesSpec pageFile.deviceName "cached"]
    else [])

/-- The values the usage builder is given for one device entry: the `int64`
conversions of the counters that are present. -/
def usageDeviceValues (pageFile : pageFileStats) : List Int :=
  [int64 pageFile.usedBytes, int64 pageFile.freeBytes] ++
  (match pageFile.cachedBytes with
    | some cachedBytes => [int64 cachedBytes]
    | none => [])

/-- The paging-operations group as seen in a scrape result: the metrics that are not
the usage metric, and the partial failures recorded with the group's tag. -/
def scrapeResult.pagingGroup (r : scrapeResult) :
    MetricSlice × List scrapererror.PartialScrapeError :=
  (r.metrics.filter (fun m => m.name != "paging usage"),
    r.errors.errs.filter (fun pe => pe.Failed == (pagingMetricsLen : Int)))

/-- The usage group as seen in a scrape result: the usage metric, and the partial
failures recorded with the group's tag. -/
def scrapeResult.usageGroup (r : scrapeResult) :
    MetricSlice × List scrapererror.PartialScrapeError :=
  (r.metrics.filter (fun m => m.name == "paging usage"),
    r.errors.errs.filter (fun pe => pe.Failed == (pagingUsageMetricsLen : Int)))

/-! ## Auxiliary lemmas -/

theorem loopBody_length (now : Timestamp) (idps : List NumberDataPoint)
    (pageFile : pageFileStats) :
    (initializePagingUsageMetric.loopBody now idps pageFile).length =
      idps.length + 2 + (if pageFile.cachedBytes.isSome then 1 else 0) := by
  unfold initializePagingUsageMetric.loopBody
  cases h : pageFile.cachedBytes <;> simp

theorem foldl_loopBody_length (now : Timestamp) (ps : List pageFileStats) :
    ∀ idps : List NumberDataPoint,
      (ps.foldl (initializePagingUsageMetric.loopBody now) idps).length =
        idps.length + 2 * ps.length + ps.countP (fun p => p.cachedBytes.isSome) := by
  induction ps with
  | nil => intro idps; simp
  | cons p ps ih =>
    intro idps
    rw [List.foldl_cons, ih, loopBody_length, List.length_cons, List.countP_cons]
    split <;> omega

theorem int64_eq_self_iff (x : Nat) (hx : x < 2 ^ 64) : int64 x = (x : Int) ↔ x < 2 ^ 63 := by
  unfold int64
  rw [Nat.mod_eq_of_lt hx]
  split <;> omega

theorem int64_uint64Sub_eq_iff (a b : Nat) (ha : a < 2 ^ 64) (hb : b < 2 ^ 64) :
    int64 (uint64Sub a b) = (a : Int) - (b : Int) ↔
      -(2 ^ 63) ≤ (a : Int) - (b : Int) ∧ (a : Int) - (b : Int) < 2 ^ 63 := by
  unfold int64 uint64Sub
  rw [Nat.mod_eq_of_lt ha, Nat.mod_eq_of_lt hb, Nat.mod_mod]
  split <;> omega

/-! ## Data point counts -/

/-- C1: for every list of page-file stats, the usage metric built by
`initializePagingUsageMetric` has exactly `2 * D + C` data points, `D` the number of
devices and `C` the number of devices whose `cachedBytes` is present. -/
theorem usage_metric_point_count (now : Timestamp) (ps : List pageFileStats) :
    (initializePagingUsageMetric Metric.empty now ps).dataPoints.length =
      2 * ps.length + ps.countP (fun p => p.cachedBytes.isSome) := by
  unfold initializePagingUsageMetric
  simp only [NumberDataPointSlice.EnsureCapacity, metadata.Metrics.SystemPagingUsage.Init,
    Metric.empty]
  rw [foldl_loopBody_length]
  simp

/-- C2: for every swap-stats value, the operations metric built by
`initializePagingOperationsMetric` has exactly 4 data points and the faults metric built
by `initializePageFaultsMetric` has exactly 2 data points. -/
theorem operations_and_faults_point_count (startTime now : Timestamp) (swap : SwapMemoryStat) :
    (initializePagingOperationsMetric Metric.empty startTime now swap).dataPoints.length = 4 ∧
      (initializePageFaultsMetric Metric.empty startTime now swap).dataPoints.length = 2 := by
  constructor <;> rfl

/-! ## Page fault values -/

/-- C3 (as stated, refuted): with `pgFault = 2 ^ 63` and `pgMajFault = 0` the minor
point of the faults metric carries `-2 ^ 63`, not the integer difference `2 ^ 63`. -/
theorem faults_minor_value_counterexample :
    (SwapMemoryStat.mk 0 0 0 0 (2 ^ 63) 0).wf ∧
      ((initializePageFaultsMetric Metric.empty 0 0
          (SwapMemoryStat.mk 0 0 0 0 (2 ^ 63) 0)).dataPoints.map (fun p => p.intVal)
        = [0, -9223372036854775808]) ∧
      ¬ ((initializePageFaultsMetric Metric.empty 0 0
          (SwapMemoryStat.mk 0 0 0 0 (2 ^ 63) 0)).dataPoints.map (fun p => p.intVal)
        = [((0 : Nat) : Int), ((2 ^ 63 : Nat) : Int) - ((0 : Nat) : Int)]) := by
  refine ⟨by unfold SwapMemoryStat.wf; decide, by decide, by decide⟩

/-- C3 (amended): for every swap-stats value with `uint64` counters, the faults metric
has the point labeled `type=major` first and the point labeled `type=minor` second, with
values `int64(pgMajFault)` and `int64(pgFault - pgMajFault)`, the subtraction being the
`uint64` one; these are `pgMajFault` and the integer difference `pgFault − pgMajFault`
exactly when `pgMajFault < 2 ^ 63` and `-2 ^ 63 ≤ pgFault − pgMajFault < 2 ^ 63`. -/
theorem faults_points_labels_values (startTime now : Timestamp) (swap : SwapMemoryStat)
    (hF : swap.PgFault < 2 ^ 64) (hM : swap.PgMajFault < 2 ^ 64) :
    (initializePageFaultsMetric Metric.empty startTime now swap).dataPoints.map
        (fun p => p.attributes) = [[("type", "major")], [("type", "minor")]] ∧
      (initializePageFaultsMetric Metric.empty startTime now swap).dataPoints.map
        (fun p => p.intVal) =
          [int64 swap.PgMajFault, int64 (uint64Sub swap.PgFault swap.PgMajFault)] ∧
      ((initializePageFaultsMetric Metric.empty startTime now swap).dataPoints.map
        (fun p => p.intVal) =
          [(swap.PgMajFault : Int), (swap.PgFault : Int) - (swap.PgMajFault : Int)] ↔
        swap.PgMajFault < 2 ^ 63 ∧ -(2 ^ 63) ≤ (swap.PgFault : Int) - (swap.PgMajFault : Int) ∧
          (swap.PgFault : Int) - (swap.PgMajFault : Int) < 2 ^ 63) := by
  have hv : (initializePageFaultsMetric Metric.empty startTime now swap).dataPoints.map
      (fun p => p.intVal) =
        [int64 swap.PgMajFault, int64 (uint64Sub swap.PgFault swap.PgMajFault)] := rfl
  refine ⟨rfl, hv, ?_⟩
  rw [hv]
  simp only [List.cons.injEq, and_true]
  rw [int64_eq_self_iff _ hM, int64_uint64Sub_eq_iff _ _ hF hM]

/-- Witness of `faults_points_labels_values` at `pgFault = 10`, `pgMajFault = 4`. -/
theorem faults_points_labels_values_witness :
    ((10 : Nat) < 2 ^ 64 ∧ (4 : Nat) < 2 ^ 64) ∧
      ((initializePageFaultsMetric Metric.empty 7 9 (SwapMemoryStat.mk 1 2 3 4 10 4)).dataPoints.map
        (fun p => p.attributes) = [[("type", "major")], [("type", "minor")]] ∧
      (initializePageFaultsMetric Metric.empty 7 9 (SwapMemoryStat.mk 1 2 3 4 10 4)).dataPoints.map
        (fun p => p.intVal) = [int64 4, int64 (uint64Sub 10 4)] ∧
      ((initializePageFaultsMetric Metric.empty 7 9 (SwapMemoryStat.mk 1 2 3 4 10 4)).dataPoints.map
        (fun p => p.intVal) = [((4 : Nat) : Int), ((10 : Nat) : Int) - ((4 : Nat) : Int)] ↔
        (4 : Nat) < 2 ^ 63 ∧ -(2 ^ 63) ≤ ((10 : Nat) : Int) - ((4 : Nat) : Int) ∧
          ((10 : Nat) : Int) - ((4 : Nat) : Int) < 2 ^ 63)) :=
  ⟨⟨by decide, by decide⟩,
    faults_points_labels_values 7 9 (SwapMemoryStat.mk 1 2 3 4 10 4) (by decide) (by decide)⟩

/-! ## Sub-scrapes -/

theorem usage_subscrape_ok (s : scraper) (t : Time) (ms : MetricSlice)
    (ps : List pageFileStats) (h : s.getPageFileStats () = .ok ps) :
    s.scrapeAndAppendPagingUsageMetric t ms =
      (s, ms ++ [initializePagingUsageMetric Metric.empty (NewTimestampFromTime t) ps], none) := by
  simp [scraper.scrapeAndAppendPagingUsageMetric, h, MetricSlice.EnsureCapacity]

theorem usage_subscrape_error (s : scraper) (t : Time) (ms : MetricSlice) (e : error)
    (h : s.getPageFileStats () = .error e) :
    s.scrapeAndAppendPagingUsageMetric t ms = (s, ms, some e) := by
  simp [scraper.scrapeAndAppendPagingUsageMetric, h]

theorem paging_subscrape_ok (s : scraper) (t : Time) (ms : MetricSlice)
    (swap : SwapMemoryStat) (h : s.swapMemory () = .ok swap) :
    s.scrapeAndAppendPagingMetrics t ms =
      (s, ms ++ [initializePagingOperationsMetric Metric.empty s.startTime
          (NewTimestampFromTime t) swap,
        initializePageFaultsMetric Metric.empty s.startTime (NewTimestampFromTime t) swap],
        none) := by
  simp [scraper.scrapeAndAppendPagingMetrics, h, MetricSlice.EnsureCapacity]

theorem paging_subscrape_error (s : scraper) (t : Time) (ms : MetricSlice) (e : error)
    (h : s.swapMemory () = .error e) :
    s.scrapeAndAppendPagingMetrics t ms = (s, ms, some e) := by
  simp [scraper.scrapeAndAppendPagingMetrics, h]

/-! ## One scrape, by provider outcome -/

theorem scrape_ok_ok (s : scraper) (t₁ t₂ : Time) (ps : List pageFileStats)
    (swap : SwapMemoryStat) (hp : s.getPageFileStats () = .ok ps)
    (hs : s.swapMemory () = .ok swap) :
    s.scrape t₁ t₂ =
      { s := s,
        metrics := [initializePagingUsageMetric Metric.empty (NewTimestampFromTime t₁) ps,
          initializePagingOperationsMetric Metric.empty s.startTime (NewTimestampFromTime t₂) swap,
          initializePageFaultsMetric Metric.empty s.startTime (NewTimestampFromTime t₂) swap],
        err := none,
        errors := scrapererror.ScrapeErrors.zero } := by
  simp [scraper.scrape, usage_subscrape_ok s t₁ _ ps hp, paging_subscrape_ok s t₂ _ swap hs,
    NewMetricSlice, scrapererror.ScrapeErrors.Combine, scrapererror.ScrapeErrors.zero]

theorem scrape_error_ok (s : scraper) (t₁ t₂ : Time) (e : error)
    (swap : SwapMemoryStat) (hp : s.getPageFileStats () = .error e)
    (hs : s.swapMemory () = .ok swap) :
    s.scrape t₁ t₂ =
      { s := s,
        metrics := [
          initializePagingOperationsMetric Metric.empty s.startTime (NewTimestampFromTime t₂) swap,
          initializePageFaultsMetric Metric.empty s.startTime (NewTimestampFromTime t₂) swap],
        err := some { errs := [{ err := e, Failed := 1 }], Failed := 1 },
        errors := { errs := [{ err := e, Failed := 1 }], failedScrapeCount := 1 } } := by
  simp [scraper.scrape, usage_subscrape_error s t₁ _ e hp, paging_subscrape_ok s t₂ _ swap hs,
    NewMetricSlice, scrapererror.ScrapeErrors.Combine, scrapererror.ScrapeErrors.zero,
    scrapererror.ScrapeErrors.AddPartial, pagingUsageMetricsLen]

theorem scrape_ok_error (s : scraper) (t₁ t₂ : Time) (ps : List pageFileStats)
    (e : error) (hp : s.getPageFileStats () = .ok ps)
    (hs : s.swapMemory () = .error e) :
    s.scrape t₁ t₂ =
      { s := s,
        metrics := [initializePagingUsageMetric Metric.empty (NewTimestampFromTime t₁) ps],
        err := some { errs := [{ err := e, Failed := 2 }], Failed := 2 },
        errors := { errs := [{ err := e, Failed := 2 }], failedScrapeCount := 2 } } := by
  simp [scraper.scrape, usage_subscrape_ok s t₁ _ ps hp, paging_subscrape_error s t₂ _ e hs,
    NewMetricSlice, scrapererror.ScrapeErrors.Combine, scrapererror.ScrapeErrors.zero,
    scrapererror.ScrapeErrors.AddPartial, pagingMetricsLen]

theorem scrape_error_error (s : scraper) (t₁ t₂ : Time) (e₁ e₂ : error)
    (hp : s.getPageFileStats () = .error e₁) (hs : s.swapMemory () = .error e₂) :
    s.scrape t₁ t₂ =
      { s := s,
        metrics := [],
        err := some { errs := [{ err := e₁, Failed := 1 }, { err := e₂, Failed := 2 }],
                      Failed := 3 },
        errors := { errs := [{ err := e₁, Failed := 1 }, { err := e₂, Failed := 2 }],
                    failedScrapeCount := 3 } } := by
  simp [scraper.scrape, usage_subscrape_error s t₁ _ e₁ hp, paging_subscrape_error s t₂ _ e₂ hs,
    NewMetricSlice, scrapererror.ScrapeErrors.Combine, scrapererror.ScrapeErrors.zero,
    scrapererror.ScrapeErrors.AddPartial, pagingMetricsLen, pagingUsageMetricsLen]

theorem usage_metric_name (metric : Metric) (now : Timestamp) (ps : List pageFileStats) :
    (initializePagingUsageMetric metric now ps).name = "paging usage" := rfl

theorem operations_metric_name (metric : Metric) (startTime now : Timestamp)
    (swap : SwapMemoryStat) :
    (initializePagingOperationsMetric metric startTime now swap).name = "paging operations" := rfl

theorem faults_metric_name (metric : Metric) (startTime now : Timestamp)
    (swap : SwapMemoryStat) :
    (initializePageFaultsMetric metric startTime now swap).name = "page faults" := rfl

/-! ## Partial failures -/

/-- C4: when the page-file provider fails with `e` and the swap provider succeeds, the
returned metrics are exactly the operations metric followed by the faults metric built
from the swap stats, none of them the usage metric, and the aggregate error is the
partial-scrape error holding `e` with failed count `pagingUsageMetricsLen = 1`. -/
theorem scrape_pageFile_failure (s : scraper) (t₁ t₂ : Time) (e : error)
    (swap : SwapMemoryStat) (hp : s.getPageFileStats () = .error e)
    (hs : s.swapMemory () = .ok swap) :
    (s.scrape t₁ t₂).metrics =
        [initializePagingOperationsMetric Metric.empty s.startTime (NewTimestampFromTime t₂) swap,
          initializePageFaultsMetric Metric.empty s.startTime (NewTimestampFromTime t₂) swap] ∧
      (∀ m ∈ (s.scrape t₁ t₂).metrics, m.name ≠ "paging usage") ∧
      (s.scrape t₁ t₂).err =
        some { errs := [{ err := e, Failed := pagingUsageMetricsLen }],
               Failed := pagingUsageMetricsLen } ∧
      pagingUsageMetricsLen = 1 := by
  rw [scrape_error_ok s t₁ t₂ e swap hp hs]
  refine ⟨rfl, ?_, rfl, rfl⟩
  intro m hm
  simp only [List.mem_cons, List.mem_singleton, List.not_mem_nil, or_false] at hm
  rcases hm with rfl | rfl
  · rw [operations_metric_name]; decide
  · rw [faults_metric_name]; decide

/-- Witness of `scrape_pageFile_failure`: page-file provider failing, swap provider
returning the worked example's counters. -/
theorem scrape_pageFile_failure_witness :
    ((fixture.scraperWith (.error ⟨"no page files"⟩) (.ok fixture.swap)).getPageFileStats ()
        = .error ⟨"no page files"⟩ ∧
      (fixture.scraperWith (.error ⟨"no page files"⟩) (.ok fixture.swap)).swapMemory ()
        = .ok fixture.swap) ∧
      ((fixture.scraperWith (.error ⟨"no page files"⟩) (.ok fixture.swap)).scrape ⟨11⟩ ⟨12⟩).err =
        some { errs := [{ err := ⟨"no page files"⟩, Failed := pagingUsageMetricsLen }],
               Failed := pagingUsageMetricsLen } :=
  ⟨⟨rfl, rfl⟩,
    (scrape_pageFile_failure (fixture.scraperWith (.error ⟨"no page files"⟩) (.ok fixture.swap))
      ⟨11⟩ ⟨12⟩ ⟨"no page files"⟩ fixture.swap rfl rfl).2.2.1⟩

/-- C5: when the swap provider fails with `e` and the page-file provider succeeds, the
returned metrics are exactly one metric, the usage metric built from the page-file
stats, neither the operations nor the faults metric, and the aggregate error is
non-empty and holds `e`. -/
theorem scrape_swap_failure (s : scraper) (t₁ t₂ : Time) (ps : List pageFileStats)
    (e : error) (hp : s.getPageFileStats () = .ok ps)
    (hs : s.swapMemory () = .error e) :
    (s.scrape t₁ t₂).metrics =
        [initializePagingUsageMetric Metric.empty (NewTimestampFromTime t₁) ps] ∧
      (∀ m ∈ (s.scrape t₁ t₂).metrics,
        m.name ≠ "paging operations" ∧ m.name ≠ "page faults") ∧
      (∃ agg, (s.scrape t₁ t₂).err = some agg ∧
        agg.errs.map (fun pe => pe.err) = [e]) := by
  rw [scrape_ok_error s t₁ t₂ ps e hp hs]
  refine ⟨rfl, ?_, ⟨_, rfl, rfl⟩⟩
  intro m hm
  simp only [List.mem_singleton] at hm
  subst hm
  rw [usage_metric_name]
  exact ⟨by decide, by decide⟩

/-- Witness of `scrape_swap_failure`: swap provider failing, page-file provider
returning the worked example's device. -/
theorem scrape_swap_failure_witness :
    ((fixture.scraperWith (.ok fixture.pageFiles) (.error ⟨"no swap"⟩)).getPageFileStats ()
        = .ok fixture.pageFiles ∧
      (fixture.scraperWith (.ok fixture.pageFiles) (.error ⟨"no swap"⟩)).swapMemory ()
        = .error ⟨"no swap"⟩) ∧
      ((fixture.scraperWith (.ok fixture.pageFiles) (.error ⟨"no swap"⟩)).scrape ⟨11⟩ ⟨12⟩).metrics =
        [initializePagingUsageMetric Metric.empty (NewTimestampFromTime ⟨11⟩)
          fixture.pageFiles] :=
  ⟨⟨rfl, rfl⟩,
    (scrape_swap_failure (fixture.scraperWith (.ok fixture.pageFiles) (.error ⟨"no swap"⟩))
      ⟨11⟩ ⟨12⟩ fixture.pageFiles ⟨"no swap"⟩ rfl rfl).1⟩

/-- C6 (as stated, refuted): with the swap provider failing, the failure recorded for
the paging-operations group is tagged 2, while a successful paging-operations
sub-scrape produces 4 + 2 = 6 data points. -/
theorem paging_failure_tag_counterexample :
    ((fixture.scraperWith (.ok fixture.pageFiles) (.error ⟨"no swap"⟩)).scrape ⟨11⟩ ⟨12⟩).errors.errs
        = [{ err := ⟨"no swap"⟩, Failed := 2 }] ∧
      (((fixture.scraperWith (.ok fixture.pageFiles)
          (.ok fixture.swap)).scrapeAndAppendPagingMetrics ⟨12⟩ []).2.1.map
          (fun m => m.dataPoints.length)).sum = 6 ∧
      ¬ (((fixture.scraperWith (.ok fixture.pageFiles)
          (.error ⟨"no swap"⟩)).scrape ⟨11⟩ ⟨12⟩).errors.errs.map (fun pe => pe.Failed) = [6]) := by
  refine ⟨rfl, rfl, by decide⟩

/-- C6 (amended): when the swap provider fails with `e`, the partial failure recorded
last, for the paging-operations group, is `e` tagged with `pagingMetricsLen = 2`, which
is the number of metrics (operations and faults) that a successful paging-operations
sub-scrape appends. -/
theorem paging_failure_tag (s : scraper) (t₁ t₂ : Time) (e : error)
    (hs : s.swapMemory () = .error e) :
    (s.scrape t₁ t₂).errors.errs.getLast? = some { err := e, Failed := pagingMetricsLen } ∧
      pagingMetricsLen = 2 ∧
      (∀ (s' : scraper) (t : Time) (ms : MetricSlice) (swap : SwapMemoryStat),
        s'.swapMemory () = .ok swap →
          (s'.scrapeAndAppendPagingMetrics t ms).2.1.length = ms.length + pagingMetricsLen) := by
  refine ⟨?_, rfl, ?_⟩
  · cases hp : s.getPageFileStats () with
    | error e₁ => rw [scrape_error_error s t₁ t₂ e₁ e hp hs]; rfl
    | ok ps => rw [scrape_ok_error s t₁ t₂ ps e hp hs]; rfl
  · intro s' t ms swap h
    rw [paging_subscrape_ok s' t ms swap h]
    simp [pagingMetricsLen]

/-- Witness of `paging_failure_tag`: both providers failing. -/
theorem paging_failure_tag_witness :
    (fixture.scraperWith (.error ⟨"no page files"⟩) (.error ⟨"no swap"⟩)).swapMemory ()
        = .error ⟨"no swap"⟩ ∧
      ((fixture.scraperWith (.error ⟨"no page files"⟩)
          (.error ⟨"no swap"⟩)).scrape ⟨11⟩ ⟨12⟩).errors.errs.getLast?
        = some { err := ⟨"no swap"⟩, Failed := pagingMetricsLen } :=
  ⟨rfl,
    (paging_failure_tag (fixture.scraperWith (.error ⟨"no page files"⟩) (.error ⟨"no swap"⟩))
      ⟨11⟩ ⟨12⟩ ⟨"no swap"⟩ rfl).1⟩

/-- C7: when the page-file provider fails with `e₁` and the swap provider fails with
`e₂`, the returned metric slice is empty and the aggregate error holds both errors,
`e₁` first, with failed count `pagingUsageMetricsLen + pagingMetricsLen`. -/
theorem scrape_both_failure (s : scraper) (t₁ t₂ : Time) (e₁ e₂ : error)
    (hp : s.getPageFileStats () = .error e₁) (hs : s.swapMemory () = .error e₂) :
    (s.scrape t₁ t₂).metrics = [] ∧ (s.scrape t₁ t₂).metrics.length = 0 ∧
      (∃ agg, (s.scrape t₁ t₂).err = some agg ∧
        agg.errs.map (fun pe => pe.err) = [e₁, e₂] ∧
        agg.Failed = ((pagingUsageMetricsLen + pagingMetricsLen : Nat) : Int)) := by
  rw [scrape_error_error s t₁ t₂ e₁ e₂ hp hs]
  exact ⟨rfl, rfl, _, rfl, rfl, rfl⟩

/-- Witness of `scrape_both_failure`: both providers failing. -/
theorem scrape_both_failure_witness :
    ((fixture.scraperWith (.error ⟨"no page files"⟩) (.error ⟨"no swap"⟩)).getPageFileStats ()
        = .error ⟨"no page files"⟩ ∧
      (fixture.scraperWith (.error ⟨"no page files"⟩) (.error ⟨"no swap"⟩)).swapMemory ()
        = .error ⟨"no swap"⟩) ∧
      ((fixture.scraperWith (.error ⟨"no page files"⟩)
        (.error ⟨"no swap"⟩)).scrape ⟨11⟩ ⟨12⟩).metrics = [] :=
  ⟨⟨rfl, rfl⟩,
    (scrape_both_failure (fixture.scraperWith (.error ⟨"no page files"⟩) (.error ⟨"no swap"⟩))
      ⟨11⟩ ⟨12⟩ ⟨"no page files"⟩ ⟨"no swap"⟩ rfl rfl).1⟩

/-- C8: for every pair of provider outcomes, the aggregate error returned by `scrape`
is empty if and only if both providers succeeded, and the returned metrics are exactly
the groups whose provider succeeded: the usage metric when the page-file provider
succeeded, then the operations and faults metrics when the swap provider succeeded. -/
theorem scrape_error_empty_iff (s : scraper) (t₁ t₂ : Time) :
    ((s.scrape t₁ t₂).err = none ↔
        (∃ ps, s.getPageFileStats () = .ok ps) ∧ (∃ swap, s.swapMemory () = .ok swap)) ∧
      (s.scrape t₁ t₂).metrics =
        (match s.getPageFileStats () with
          | .ok ps => [initializePagingUsageMetric Metric.empty (NewTimestampFromTime t₁) ps]
          | .error _ => []) ++
        (match s.swapMemory () with
          | .ok swap =>
            [initializePagingOperationsMetric Metric.empty s.startTime
                (NewTimestampFromTime t₂) swap,
              initializePageFaultsMetric Metric.empty s.startTime
                (NewTimestampFromTime t₂) swap]
          | .error _ => []) := by
  cases hp : s.getPageFileStats () with
  | error e₁ =>
    cases hs : s.swapMemory () with
    | error e₂ => rw [scrape_error_error s t₁ t₂ e₁ e₂ hp hs]; simp
    | ok swap => rw [scrape_error_ok s t₁ t₂ e₁ swap hp hs]; simp
  | ok ps =>
    cases hs : s.swapMemory () with
    | error e₂ => rw [scrape_ok_error s t₁ t₂ ps e₂ hp hs]; simp
    | ok swap => rw [scrape_ok_ok s t₁ t₂ ps swap hp hs]; simp

/-! ## Start -/

/-- C9: if the boot-time provider returns an error `e`, `start` returns exactly `e` and
leaves the scraper, its reference start time and every other field, unchanged; if the
provider succeeds with `b`, `start` returns no error and sets the reference start time
to `b * 10 ^ 9` in `uint64` arithmetic, leaving the other fields unchanged. -/
theorem start_outcome (s : scraper) :
    (∀ e, s.bootTime () = .error e →
        s.start.2 = some e ∧ s.start.1 = s ∧ s.start.1.startTime = s.startTime) ∧
      (∀ b, s.bootTime () = .ok b →
        s.start.2 = none ∧ s.start.1.startTime = (b * 10 ^ 9) % 2 ^ 64 ∧
          s.start.1 = { s with startTime := (b * 10 ^ 9) % 2 ^ 64 }) := by
  constructor
  · intro e h
    simp [scraper.start, h]
  · intro b h
    simp [scraper.start, h, uint64Mul]

/-- Witness of `start_outcome`: a failing boot-time provider leaves the start time 7 in
place, and a boot time of 5 seconds sets it to `5 * 10 ^ 9`. -/
theorem start_outcome_witness :
    ((scraper.mk ⟨0⟩ 7 (fun _ => .error ⟨"no boot time"⟩) (fun _ => .ok [])
        (fun _ => .ok fixture.swap)).start.2 = some ⟨"no boot time"⟩ ∧
      (scraper.mk ⟨0⟩ 7 (fun _ => .error ⟨"no boot time"⟩) (fun _ => .ok [])
        (fun _ => .ok fixture.swap)).start.1.startTime = 7) ∧
      ((scraper.mk ⟨0⟩ 7 (fun _ => .ok 5) (fun _ => .ok [])
        (fun _ => .ok fixture.swap)).start.2 = none ∧
      (scraper.mk ⟨0⟩ 7 (fun _ => .ok 5) (fun _ => .ok [])
        (fun _ => .ok fixture.swap)).start.1.startTime = 5000000000) :=
  ⟨⟨((start_outcome (scraper.mk ⟨0⟩ 7 (fun _ => .error ⟨"no boot time"⟩) (fun _ => .ok [])
        (fun _ => .ok fixture.swap))).1 ⟨"no boot time"⟩ rfl).1,
     ((start_outcome (scraper.mk ⟨0⟩ 7 (fun _ => .error ⟨"no boot time"⟩) (fun _ => .ok [])
        (fun _ => .ok fixture.swap))).1 ⟨"no boot time"⟩ rfl).2.2⟩,
   ⟨((start_outcome (scraper.mk ⟨0⟩ 7 (fun _ => .ok 5) (fun _ => .ok [])
        (fun _ => .ok fixture.swap))).2 5 rfl).1,
    ((start_outcome (scraper.mk ⟨0⟩ 7 (fun _ => .ok 5) (fun _ => .ok [])
        (fun _ => .ok fixture.swap))).2 5 rfl).2.1⟩⟩

/-! ## Worked example -/

/-- C10: with the page-file provider returning the single device "/dev/sda1" (used 100,
free 50, no cached value) and the swap provider returning sin 1, sout 2, pgIn 3,
pgOut 4, pgFault 10, pgMajFault 4, `scrape` returns three metrics: usage with the two
points used = 100 and free = 50, both labeled with the device; operations with the four
points major/page_in = 1, major/page_out = 2, minor/page_in = 3, minor/page_out = 4;
faults with the two points major = 4 and minor = 6; and the aggregate error is empty. -/
theorem scrape_worked_example (config : Config) (startTime : Timestamp)
    (bootTime : Unit → Except error Nat) (t₁ t₂ : Time) :
    ((scraper.mk config startTime bootTime
        (fun _ => .ok [{ deviceName := "/dev/sda1", usedBytes := 100, freeBytes := 50,
                         cachedBytes := none }])
        (fun _ => .ok { Sin := 1, Sout := 2, PgIn := 3, PgOut := 4, PgFault := 10,
                        PgMajFault := 4 })).scrape t₁ t₂).err = none ∧
      ((scraper.mk config startTime bootTime
        (fun _ => .ok [{ deviceName := "/dev/sda1", usedBytes := 100, freeBytes := 50,
                         cachedBytes := none }])
        (fun _ => .ok { Sin := 1, Sout := 2, PgIn := 3, PgOut := 4, PgFault := 10,
                        PgMajFault := 4 })).scrape t₁ t₂).metrics.map
          (fun m => (m.name, m.dataPoints.map (fun p => (p.attributes, p.intVal)))) =
        [("paging usage",
            [([("device", "/dev/sda1"), ("state", "used")], 100),
             ([("device", "/dev/sda1"), ("state", "free")], 50)]),
         ("paging operations",
            [([("type", "major"), ("direction", "page_in")], 1),
             ([("type", "major"), ("direction", "page_out")], 2),
             ([("type", "minor"), ("direction", "page_in")], 3),
             ([("type", "minor"), ("direction", "page_out")], 4)]),
         ("page faults",
            [([("type", "major")], 4),
             ([("type", "minor")], 6)])] := by
  constructor
  · rfl
  · rfl

/-! ## Closed forms of the builders -/

theorem loopBody_append (now : Timestamp) (idps : List NumberDataPoint)
    (pageFile : pageFileStats) :
    initializePagingUsageMetric.loopBody now idps pageFile =
      idps ++ initializePagingUsageMetric.loopBody now [] pageFile := by
  unfold initializePagingUsageMetric.loopBody
  cases pageFile.cachedBytes <;> simp

theorem foldl_loopBody_eq (now : Timestamp) (ps : List pageFileStats) :
    ∀ idps : List NumberDataPoint,
      ps.foldl (initializePagingUsageMetric.loopBody now) idps =
        idps ++ ps.flatMap (initializePagingUsageMetric.loopBody now []) := by
  induction ps with
  | nil => intro idps; simp
  | cons p ps ih =>
    intro idps
    rw [List.foldl_cons, ih, loopBody_append, List.flatMap_cons, List.append_assoc]

theorem usage_metric_dataPoints (now : Timestamp) (ps : List pageFileStats) :
    (initializePagingUsageMetric Metric.empty now ps).dataPoints =
      ps.flatMap (initializePagingUsageMetric.loopBody now []) := by
  unfold initializePagingUsageMetric
  simp only [NumberDataPointSlice.EnsureCapacity, metadata.Metrics.SystemPagingUsage.Init,
    Metric.empty]
  rw [foldl_loopBody_eq]
  simp

theorem usage_point_timestamps (now : Timestamp) (deviceLabel stateLabel : String)
    (value : Int) :
    (initializePagingUsageDataPoint NumberDataPoint.empty now deviceLabel stateLabel
        value).startTimestamp = 0 ∧
      (initializePagingUsageDataPoint NumberDataPoint.empty now deviceLabel stateLabel
        value).timestamp = now := by
  unfold initializePagingUsageDataPoint
  by_cases h : deviceLabel = "" <;> simp [h, NumberDataPoint.empty]

theorem usage_metric_timestamps (now : Timestamp) (ps : List pageFileStats)
    (p : NumberDataPoint)
    (hp : p ∈ (initializePagingUsageMetric Metric.empty now ps).dataPoints) :
    p.startTimestamp = 0 ∧ p.timestamp = now := by
  rw [usage_metric_dataPoints, List.mem_flatMap] at hp
  obtain ⟨pf, -, hpf⟩ := hp
  unfold initializePagingUsageMetric.loopBody at hpf
  cases hc : pf.cachedBytes <;> simp [hc] at hpf
  · rcases hpf with rfl | rfl <;> exact usage_point_timestamps _ _ _ _
  · rcases hpf with rfl | rfl | rfl <;> exact usage_point_timestamps _ _ _ _

theorem operations_metric_timestamps (startTime now : Timestamp) (swap : SwapMemoryStat)
    (p : NumberDataPoint)
    (hp : p ∈ (initializePagingOperationsMetric Metric.empty startTime now swap).dataPoints) :
    p.startTimestamp = startTime ∧ p.timestamp = now := by
  simp [initializePagingOperationsMetric, NumberDataPointSlice.EnsureCapacity,
    metadata.Metrics.SystemPagingOperations.Init, Metric.empty] at hp
  rcases hp with rfl | rfl | rfl | rfl <;> exact ⟨rfl, rfl⟩

theorem faults_metric_timestamps (startTime now : Timestamp) (swap : SwapMemoryStat)
    (p : NumberDataPoint)
    (hp : p ∈ (initializePageFaultsMetric Metric.empty startTime now swap).dataPoints) :
    p.startTimestamp = startTime ∧ p.timestamp = now := by
  simp [initializePageFaultsMetric, NumberDataPointSlice.EnsureCapacity,
    metadata.Metrics.SystemPagingFaults.Init, Metric.empty] at hp
  rcases hp with rfl | rfl <;> exact ⟨rfl, rfl⟩

theorem scrape_metrics_eq (s : scraper) (t₁ t₂ : Time) :
    (s.scrape t₁ t₂).metrics =
      (match s.getPageFileStats () with
        | .ok ps => [initializePagingUsageMetric Metric.empty (NewTimestampFromTime t₁) ps]
        | .error _ => []) ++
      (match s.swapMemory () with
        | .ok swap =>
          [initializePagingOperationsMetric Metric.empty s.startTime
              (NewTimestampFromTime t₂) swap,
            initializePageFaultsMetric Metric.empty s.startTime
              (NewTimestampFromTime t₂) swap]
        | .error _ => []) := by
  cases hp : s.getPageFileStats () with
  | error e₁ =>
    cases hs : s.swapMemory () with
    | error e₂ => rw [scrape_error_error s t₁ t₂ e₁ e₂ hp hs]; simp
    | ok swap => rw [scrape_error_ok s t₁ t₂ e₁ swap hp hs]; simp
  | ok ps =>
    cases hs : s.swapMemory () with
    | error e₂ => rw [scrape_ok_error s t₁ t₂ ps e₂ hp hs]; simp
    | ok swap => rw [scrape_ok_ok s t₁ t₂ ps swap hp hs]; simp

theorem scrape_scraper_eq (s : scraper) (t₁ t₂ : Time) : (s.scrape t₁ t₂).s = s := by
  cases hp : s.getPageFileStats () with
  | error e₁ =>
    cases hs : s.swapMemory () with
    | error e₂ => rw [scrape_error_error s t₁ t₂ e₁ e₂ hp hs]
    | ok swap => rw [scrape_error_ok s t₁ t₂ e₁ swap hp hs]
  | ok ps =>
    cases hs : s.swapMemory () with
    | error e₂ => rw [scrape_ok_error s t₁ t₂ ps e₂ hp hs]
    | ok swap => rw [scrape_ok_ok s t₁ t₂ ps swap hp hs]

theorem mem_scrape_metrics (s : scraper) (t₁ t₂ : Time) (m : Metric)
    (hm : m ∈ (s.scrape t₁ t₂).metrics) :
    (∃ ps, m = initializePagingUsageMetric Metric.empty (NewTimestampFromTime t₁) ps) ∨
      (∃ swap, m = initializePagingOperationsMetric Metric.empty s.startTime
          (NewTimestampFromTime t₂) swap) ∨
      (∃ swap, m = initializePageFaultsMetric Metric.empty s.startTime
          (NewTimestampFromTime t₂) swap) := by
  rw [scrape_metrics_eq] at hm
  rcases List.mem_append.1 hm with h | h
  · cases hp : s.getPageFileStats () with
    | error e => simp [hp] at h
    | ok ps => simp [hp] at h; exact Or.inl ⟨ps, h⟩
  · cases hs : s.swapMemory () with
    | error e => simp [hs] at h
    | ok swap =>
      simp [hs] at h
      rcases h with h | h
      · exact Or.inr (Or.inl ⟨swap, h⟩)
      · exact Or.inr (Or.inr ⟨swap, h⟩)

theorem afterScrapes_eq (ts : List (Time × Time)) : ∀ s : scraper, s.afterScrapes ts = s := by
  induction ts with
  | nil => intro s; rfl
  | cons t ts ih =>
    intro s
    unfold scraper.afterScrapes
    rw [List.foldl_cons, scrape_scraper_eq]
    exact ih s

theorem cumulative_points_startTimestamp (s : scraper) (t₁ t₂ : Time) (m : Metric)
    (p : NumberDataPoint) (hm : m ∈ (s.scrape t₁ t₂).metrics)
    (hn : m.name ≠ "paging usage") (hp : p ∈ m.dataPoints) :
    p.startTimestamp = s.startTime ∧ p.timestamp = NewTimestampFromTime t₂ := by
  rcases mem_scrape_metrics s t₁ t₂ m hm with ⟨ps, rfl⟩ | ⟨swap, rfl⟩ | ⟨swap, rfl⟩
  · exact absurd (usage_metric_name _ _ _) hn
  · exact operations_metric_timestamps _ _ _ p hp
  · exact faults_metric_timestamps _ _ _ p hp

/-! ## Frame -/

/-- C11: `scrape` does not modify the scraper: for every scraper and every pair of
provider outcomes the scraper after `scrape`, its reference start time, configuration
and provider fields, is the scraper before it; the same holds after any run of scrapes,
so every cumulative point of every later scrape carries the start time the scraper had,
which after a successful `start` is the one `start` set. -/
theorem scrape_leaves_scraper (s : scraper) (t₁ t₂ : Time) :
    (s.scrape t₁ t₂).s = s ∧
      (s.scrape t₁ t₂).s.startTime = s.startTime ∧
      (s.scrape t₁ t₂).s.config = s.config ∧
      (∀ ts : List (Time × Time), s.afterScrapes ts = s) ∧
      (∀ (ts : List (Time × Time)) (t₃ t₄ : Time) (m : Metric) (p : NumberDataPoint),
        m ∈ ((s.afterScrapes ts).scrape t₃ t₄).metrics → m.name ≠ "paging usage" →
          p ∈ m.dataPoints → p.startTimestamp = s.startTime) ∧
      (∀ (b : Nat) (ts : List (Time × Time)), s.bootTime () = .ok b →
        (s.start.1.afterScrapes ts).startTime = (b * 10 ^ 9) % 2 ^ 64) := by
  refine ⟨scrape_scraper_eq s t₁ t₂, ?_, ?_, fun ts => afterScrapes_eq ts s, ?_, ?_⟩
  · rw [scrape_scraper_eq]
  · rw [scrape_scraper_eq]
  · intro ts t₃ t₄ m p hm hn hp
    rw [afterScrapes_eq] at hm
    exact (cumulative_points_startTimestamp s t₃ t₄ m p hm hn hp).1
  · intro b ts h
    rw [afterScrapes_eq]
    simp [scraper.start, h, uint64Mul]

/-- Witness of `scrape_leaves_scraper`: after `start` with boot time 5 and two scrapes,
the start time is `5 * 10 ^ 9`, and the first operations point of a scrape after one
scrape carries the scraper's start time. -/
theorem scrape_leaves_scraper_witness :
    (((fixture.scraperWith (.ok fixture.pageFiles) (.ok fixture.swap)).start.1.afterScrapes
        [(⟨11⟩, ⟨12⟩), (⟨21⟩, ⟨22⟩)]).startTime = 5000000000) ∧
      (NumberDataPoint.mk [("type", "major"), ("direction", "page_in")] 5000000000 32
        1).startTimestamp =
        (fixture.scraperWith (.ok fixture.pageFiles) (.ok fixture.swap)).startTime :=
  ⟨(scrape_leaves_scraper (fixture.scraperWith (.ok fixture.pageFiles) (.ok fixture.swap))
      ⟨11⟩ ⟨12⟩).2.2.2.2.2 5 [(⟨11⟩, ⟨12⟩), (⟨21⟩, ⟨22⟩)] rfl,
    (scrape_leaves_scraper (fixture.scraperWith (.ok fixture.pageFiles) (.ok fixture.swap))
      ⟨11⟩ ⟨12⟩).2.2.2.2.1 [(⟨11⟩, ⟨12⟩)] ⟨31⟩ ⟨32⟩
      (initializePagingOperationsMetric Metric.empty 5000000000 32 fixture.swap)
      (NumberDataPoint.mk [("type", "major"), ("direction", "page_in")] 5000000000 32 1)
      (by decide) (by decide) (by decide)⟩

/-! ## Operations metric -/

/-- C12 (as stated, refuted): with `sin = 2 ^ 63` the first point of the operations
metric, labeled `type=major`, `direction=page_in`, carries `-2 ^ 63`, not `sin`. -/
theorem operations_value_counterexample :
    (SwapMemoryStat.mk (2 ^ 63) 0 0 0 0 0).wf ∧
      ((initializePagingOperationsMetric Metric.empty 0 0
          (SwapMemoryStat.mk (2 ^ 63) 0 0 0 0 0)).dataPoints.map
          (fun p => (p.attributes, p.intVal)) =
        [([("type", "major"), ("direction", "page_in")], -9223372036854775808),
         ([("type", "major"), ("direction", "page_out")], 0),
         ([("type", "minor"), ("direction", "page_in")], 0),
         ([("type", "minor"), ("direction", "page_out")], 0)]) ∧
      ¬ ((initializePagingOperationsMetric Metric.empty 0 0
          (SwapMemoryStat.mk (2 ^ 63) 0 0 0 0 0)).dataPoints.map (fun p => p.intVal) =
        [((2 ^ 63 : Nat) : Int), ((0 : Nat) : Int), ((0 : Nat) : Int), ((0 : Nat) : Int)]) := by
  refine ⟨by unfold SwapMemoryStat.wf; decide, by decide, by decide⟩

/-- C12 (amended): for every swap-stats value with `uint64` counters, the operations
metric's four points are, in this order, (type=major, direction=page_in) with value
`int64(sin)`, (type=major, direction=page_out) with value `int64(sout)`, (type=minor,
direction=page_in) with value `int64(pgIn)` and (type=minor, direction=page_out) with
value `int64(pgOut)`; each point carries exactly those two attributes, the four
(type, direction) combinations occur once each, and the values are the counters
themselves exactly when all four counters are below `2 ^ 63`. -/
theorem operations_points_labels_values (startTime now : Timestamp) (swap : SwapMemoryStat)
    (hwf : swap.wf) :
    (initializePagingOperationsMetric Metric.empty startTime now swap).dataPoints.map
        (fun p => (p.attributes, p.intVal)) =
        [([("type", "major"), ("direction", "page_in")], int64 swap.Sin),
         ([("type", "major"), ("direction", "page_out")], int64 swap.Sout),
         ([("type", "minor"), ("direction", "page_in")], int64 swap.PgIn),
         ([("type", "minor"), ("direction", "page_out")], int64 swap.PgOut)] ∧
      ((initializePagingOperationsMetric Metric.empty startTime now swap).dataPoints.map
        (fun p => p.attributes)).Nodup ∧
      ((initializePagingOperationsMetric Metric.empty startTime now swap).dataPoints.map
          (fun p => p.intVal) =
          [(swap.Sin : Int), (swap.Sout : Int), (swap.PgIn : Int), (swap.PgOut : Int)] ↔
        swap.Sin < 2 ^ 63 ∧ swap.Sout < 2 ^ 63 ∧ swap.PgIn < 2 ^ 63 ∧ swap.PgOut < 2 ^ 63) := by
  obtain ⟨h1, h2, h3, h4, -, -⟩ := hwf
  have hv : (initializePagingOperationsMetric Metric.empty startTime now swap).dataPoints.map
      (fun p => p.intVal) =
        [int64 swap.Sin, int64 swap.Sout, int64 swap.PgIn, int64 swap.PgOut] := rfl
  have ha : (initializePagingOperationsMetric Metric.empty startTime now swap).dataPoints.map
      (fun p => p.attributes) =
        [[("type", "major"), ("direction", "page_in")],
         [("type", "major"), ("direction", "page_out")],
         [("type", "minor"), ("direction", "page_in")],
         [("type", "minor"), ("direction", "page_out")]] := rfl
  refine ⟨rfl, ?_, ?_⟩
  · rw [ha]; decide
  rw [hv]
  simp only [List.cons.injEq, and_true]
  rw [int64_eq_self_iff _ h1, int64_eq_self_iff _ h2, int64_eq_self_iff _ h3,
    int64_eq_self_iff _ h4]

/-- Witness of `operations_points_labels_values` at the worked example's counters. -/
theorem operations_points_labels_values_witness :
    fixture.swap.wf ∧
      (initializePagingOperationsMetric Metric.empty 7 9 fixture.swap).dataPoints.map
        (fun p => (p.attributes, p.intVal)) =
        [([("type", "major"), ("direction", "page_in")], int64 fixture.swap.Sin),
         ([("type", "major"), ("direction", "page_out")], int64 fixture.swap.Sout),
         ([("type", "minor"), ("direction", "page_in")], int64 fixture.swap.PgIn),
         ([("type", "minor"), ("direction", "page_out")], int64 fixture.swap.PgOut)] :=
  ⟨by unfold SwapMemoryStat.wf fixture.swap; decide,
    (operations_points_labels_values 7 9 fixture.swap
      (by unfold SwapMemoryStat.wf fixture.swap; decide)).1⟩

/-! ## Usage metric -/

theorem usage_point_attributes (dataPoint : NumberDataPoint) (now : Timestamp)
    (deviceLabel stateLabel : String) (value : Int) (h : dataPoint.attributes = []) :
    (initializePagingUsageDataPoint dataPoint now deviceLabel stateLabel value).attributes =
      usagePointAttributesSpec deviceLabel stateLabel := by
  unfold initializePagingUsageDataPoint usagePointAttributesSpec
  by_cases hd : deviceLabel = ""
  · simp [hd, h, AttributeMap.InsertString, metadata.Labels.State]
  · have hk : ¬ (metadata.Labels.Device = metadata.Labels.State) := by decide
    simp [hd, h, AttributeMap.InsertString, hk]
    exact ⟨rfl, rfl⟩

theorem loopBody_attributes (now : Timestamp) (pageFile : pageFileStats) :
    (initializePagingUsageMetric.loopBody now [] pageFile).map (fun p => p.attributes) =
      usageDeviceAttributesSpec pageFile := by
  unfold initializePagingUsageMetric.loopBody usageDeviceAttributesSpec
  cases hc : pageFile.cachedBytes <;>
    simp [usage_point_attributes _ _ _ _ _ (rfl : NumberDataPoint.empty.attributes = []),
      metadata.LabelState.Used, metadata.LabelState.Free, metadata.LabelState.Cached]

theorem loopBody_values (now : Timestamp) (pageFile : pageFileStats) :
    (initializePagingUsageMetric.loopBody now [] pageFile).map (fun p => p.intVal) =
      usageDeviceValues pageFile := by
  unfold initializePagingUsageMetric.loopBody usageDeviceValues
  cases hc : pageFile.cachedBytes <;> simp [initializePagingUsageDataPoint]

theorem map_flatMap_loopBody {β : Type} (now : Timestamp) (f : NumberDataPoint → β)
    (g : pageFileStats → List β)
    (h : ∀ pf, (initializePagingUsageMetric.loopBody now [] pf).map f = g pf)
    (ps : List pageFileStats) :
    (ps.flatMap (initializePagingUsageMetric.loopBody now [])).map f = ps.flatMap g := by
  induction ps with
  | nil => rfl
  | cons p ps ih => rw [List.flatMap_cons, List.map_append, ih, h, List.flatMap_cons]

/-- C13: for every list of page-file stats, the usage metric's points appear device by
device in the provider's order, for each device used, free, then cached (cached only
if `cachedBytes` is present); every point has the state attribute `used`, `free` or
`cached` respectively, preceded by a device attribute equal to the device name if and
only if the device name is not the empty string. -/
theorem usage_points_order_labels (now : Timestamp) (ps : List pageFileStats) :
    (initializePagingUsageMetric Metric.empty now ps).dataPoints.map (fun p => p.attributes) =
        ps.flatMap usageDeviceAttributesSpec ∧
      (∀ (stateLabel : String) (value : Int),
        (initializePagingUsageDataPoint NumberDataPoint.empty now "" stateLabel
          value).attributes = [("state", stateLabel)]) ∧
      (∀ (deviceLabel stateLabel : String) (value : Int),
        (("device", deviceLabel) ∈
          (initializePagingUsageDataPoint NumberDataPoint.empty now deviceLabel stateLabel
            value).attributes ↔ deviceLabel ≠ "") ∧
        ("state", stateLabel) ∈
          (initializePagingUsageDataPoint NumberDataPoint.empty now deviceLabel stateLabel
            value).attributes) := by
  refine ⟨?_, ?_, ?_⟩
  · rw [usage_metric_dataPoints]
    exact map_flatMap_loopBody now _ _ (loopBody_attributes now) ps
  · intro stateLabel value
    rw [usage_point_attributes _ _ _ _ _ rfl]
    rfl
  · intro deviceLabel stateLabel value
    rw [usage_point_attributes _ _ _ _ _ rfl]
    unfold usagePointAttributesSpec
    by_cases hd : deviceLabel = ""
    · subst hd; simp
    · simp [hd]

/-! ## Timestamps -/

/-- C14: for every scrape, every data point of the operations metric and of the faults
metric has start timestamp equal to the scraper's reference start time and timestamp
equal to the clock reading of the paging sub-scrape, while every data point of the
usage metric has timestamp equal to the clock reading of the usage sub-scrape and
start timestamp zero, whatever the reference start time is. -/
theorem timestamps_asymmetry (s : scraper) (t₁ t₂ : Time) :
    (∀ m ∈ (s.scrape t₁ t₂).metrics, m.name = "paging operations" ∨ m.name = "page faults" →
        ∀ p ∈ m.dataPoints,
          p.startTimestamp = s.startTime ∧ p.timestamp = NewTimestampFromTime t₂) ∧
      (∀ m ∈ (s.scrape t₁ t₂).metrics, m.name = "paging usage" →
        ∀ p ∈ m.dataPoints,
          p.startTimestamp = 0 ∧ p.timestamp = NewTimestampFromTime t₁) ∧
      (∀ m ∈ (s.scrape t₁ t₂).metrics,
        m.name = "paging usage" ∨ m.name = "paging operations" ∨ m.name = "page faults") := by
  refine ⟨?_, ?_, ?_⟩
  · intro m hm hn p hp
    refine cumulative_points_startTimestamp s t₁ t₂ m p hm ?_ hp
    rcases hn with h | h <;> rw [h] <;> decide
  · intro m hm hn p hp
    rcases mem_scrape_metrics s t₁ t₂ m hm with ⟨ps, rfl⟩ | ⟨swap, rfl⟩ | ⟨swap, rfl⟩
    · exact usage_metric_timestamps _ ps p hp
    · rw [operations_metric_name] at hn; exact absurd hn (by decide)
    · rw [faults_metric_name] at hn; exact absurd hn (by decide)
  · intro m hm
    rcases mem_scrape_metrics s t₁ t₂ m hm with ⟨ps, rfl⟩ | ⟨swap, rfl⟩ | ⟨swap, rfl⟩
    · exact Or.inl rfl
    · exact Or.inr (Or.inl rfl)
    · exact Or.inr (Or.inr rfl)

/-- Witness of `timestamps_asymmetry` on the worked example, start time `5 * 10 ^ 9`,
clock readings 11 and 12: the first operations point is stamped (start, 12) and the
first usage point (0, 11). -/
theorem timestamps_asymmetry_witness :
    ((NumberDataPoint.mk [("type", "major"), ("direction", "page_in")] 5000000000 12
        1).startTimestamp = 5000000000 ∧
      (NumberDataPoint.mk [("type", "major"), ("direction", "page_in")] 5000000000 12
        1).timestamp = NewTimestampFromTime ⟨12⟩) ∧
      ((NumberDataPoint.mk [("device", "/dev/sda1"), ("state", "used")] 0 11
        100).startTimestamp = 0 ∧
      (NumberDataPoint.mk [("device", "/dev/sda1"), ("state", "used")] 0 11
        100).timestamp = NewTimestampFromTime ⟨11⟩) :=
  ⟨(timestamps_asymmetry (fixture.scraperWith (.ok fixture.pageFiles) (.ok fixture.swap))
      ⟨11⟩ ⟨12⟩).1
      (initializePagingOperationsMetric Metric.empty 5000000000 12 fixture.swap)
      (by decide) (Or.inl rfl)
      (NumberDataPoint.mk [("type", "major"), ("direction", "page_in")] 5000000000 12 1)
      (by decide),
    (timestamps_asymmetry (fixture.scraperWith (.ok fixture.pageFiles) (.ok fixture.swap))
      ⟨11⟩ ⟨12⟩).2.1
      (initializePagingUsageMetric Metric.empty 11 fixture.pageFiles)
      (by decide) rfl
      (NumberDataPoint.mk [("device", "/dev/sda1"), ("state", "used")] 0 11 100)
      (by decide)⟩

/-! ## No devices -/

/-- C15: when the page-file provider succeeds with an empty device list, the usage
sub-scrape returns no error and appends the usage metric, a sum named "paging usage",
with zero data points; in `scrape` it is the first metric of the result and no partial
failure is recorded for the usage group. -/
theorem usage_subscrape_no_devices (s : scraper) (t₁ t₂ : Time) (ms : MetricSlice)
    (h : s.getPageFileStats () = .ok []) :
    s.scrapeAndAppendPagingUsageMetric t₁ ms =
        (s, ms ++ [{ name := "paging usage", dataType := MetricDataType.Sum,
                     dataPoints := [] }], none) ∧
      (s.scrape t₁ t₂).metrics.head? =
        some { name := "paging usage", dataType := MetricDataType.Sum, dataPoints := [] } ∧
      (s.scrape t₁ t₂).usageGroup.2 = [] := by
  refine ⟨?_, ?_, ?_⟩
  · rw [usage_subscrape_ok s t₁ ms [] h]; rfl
  · rw [scrape_metrics_eq, h]; rfl
  · cases hs : s.swapMemory () with
    | error e =>
      rw [scrape_ok_error s t₁ t₂ [] e h hs]
      simp [scrapeResult.usageGroup, pagingUsageMetricsLen]
    | ok swap => rw [scrape_ok_ok s t₁ t₂ [] swap h hs]; rfl

/-- Witness of `usage_subscrape_no_devices`: page-file provider returning no device. -/
theorem usage_subscrape_no_devices_witness :
    (fixture.scraperWith (.ok []) (.ok fixture.swap)).getPageFileStats () = .ok [] ∧
      ((fixture.scraperWith (.ok []) (.ok fixture.swap)).scrape ⟨11⟩ ⟨12⟩).metrics.head? =
        some { name := "paging usage", dataType := MetricDataType.Sum, dataPoints := [] } :=
  ⟨rfl,
    (usage_subscrape_no_devices (fixture.scraperWith (.ok []) (.ok fixture.swap))
      ⟨11⟩ ⟨12⟩ [] rfl).2.1⟩

/-! ## Sign of the minor faults value -/

theorem int64_uint64Sub_nonneg_iff (a b : Nat) (ha : a < 2 ^ 64) (hb : b < 2 ^ 64) :
    0 ≤ int64 (uint64Sub a b) ↔ (b ≤ a ∧ a - b < 2 ^ 63) ∨ a + 2 ^ 63 < b := by
  unfold int64 uint64Sub
  rw [Nat.mod_eq_of_lt ha, Nat.mod_eq_of_lt hb, Nat.mod_mod]
  split <;> omega

/-- C16 (as stated, refuted): with `pgFault = 3`, `pgMajFault = 5` the minor point of
the faults metric carries `-2`, and with `pgFault = 2 ^ 64 - 1`, `pgMajFault = 0` it
carries `-1`: the value of the minor-faults point can be negative. -/
theorem faults_minor_negative_counterexample :
    ((SwapMemoryStat.mk 0 0 0 0 3 5).wf ∧ (SwapMemoryStat.mk 0 0 0 0 (2 ^ 64 - 1) 0).wf) ∧
      ((initializePageFaultsMetric Metric.empty 0 0
          (SwapMemoryStat.mk 0 0 0 0 3 5)).dataPoints.map
          (fun p => (p.attributes, p.intVal)) =
        [([("type", "major")], 5), ([("type", "minor")], -2)]) ∧
      ((initializePageFaultsMetric Metric.empty 0 0
          (SwapMemoryStat.mk 0 0 0 0 (2 ^ 64 - 1) 0)).dataPoints.map
          (fun p => (p.attributes, p.intVal)) =
        [([("type", "major")], 0), ([("type", "minor")], -1)]) ∧
      ¬ (∀ p ∈ (initializePageFaultsMetric Metric.empty 0 0
          (SwapMemoryStat.mk 0 0 0 0 3 5)).dataPoints, 0 ≤ p.intVal) := by
  refine ⟨⟨by unfold SwapMemoryStat.wf; decide, by unfold SwapMemoryStat.wf; decide⟩,
    by decide, by decide, by decide⟩

/-- C16 (amended): for every swap-stats value with `uint64` counters such that
`pgMajFault ≤ pgFault` and `pgFault - pgMajFault < 2 ^ 63`, the value of the
minor-faults data point is `pgFault - pgMajFault` and is not negative; in general the
value is not negative exactly when that holds or `pgFault + 2 ^ 63 < pgMajFault`. -/
theorem faults_minor_nonneg (startTime now : Timestamp) (swap : SwapMemoryStat)
    (hF : swap.PgFault < 2 ^ 64) (hM : swap.PgMajFault < 2 ^ 64) :
    ∃ major minor : NumberDataPoint,
      (initializePageFaultsMetric Metric.empty startTime now swap).dataPoints = [major, minor] ∧
      minor.attributes = [("type", "minor")] ∧
      (swap.PgMajFault ≤ swap.PgFault → swap.PgFault - swap.PgMajFault < 2 ^ 63 →
        minor.intVal = ((swap.PgFault - swap.PgMajFault : Nat) : Int) ∧ 0 ≤ minor.intVal) ∧
      (0 ≤ minor.intVal ↔
        (swap.PgMajFault ≤ swap.PgFault ∧ swap.PgFault - swap.PgMajFault < 2 ^ 63) ∨
          swap.PgFault + 2 ^ 63 < swap.PgMajFault) := by
  refine ⟨_, _, rfl, rfl, ?_, ?_⟩
  · intro hle hlt
    have hiff := int64_uint64Sub_eq_iff swap.PgFault swap.PgMajFault hF hM
    have hv : int64 (uint64Sub swap.PgFault swap.PgMajFault) =
        (swap.PgFault : Int) - (swap.PgMajFault : Int) := hiff.2 (by omega)
    show int64 (uint64Sub swap.PgFault swap.PgMajFault) = _ ∧
      0 ≤ int64 (uint64Sub swap.PgFault swap.PgMajFault)
    rw [hv]
    omega
  · exact int64_uint64Sub_nonneg_iff swap.PgFault swap.PgMajFault hF hM

/-- Witness of `faults_minor_nonneg` at the worked example's counters, where the minor
value is `10 - 4 = 6`. -/
theorem faults_minor_nonneg_witness :
    (fixture.swap.PgFault < 2 ^ 64 ∧ fixture.swap.PgMajFault < 2 ^ 64) ∧
      ∃ major minor : NumberDataPoint,
        (initializePageFaultsMetric Metric.empty 7 9 fixture.swap).dataPoints =
          [major, minor] ∧
        minor.attributes = [("type", "minor")] ∧
        (fixture.swap.PgMajFault ≤ fixture.swap.PgFault →
          fixture.swap.PgFault - fixture.swap.PgMajFault < 2 ^ 63 →
          minor.intVal = ((fixture.swap.PgFault - fixture.swap.PgMajFault : Nat) : Int) ∧
            0 ≤ minor.intVal) ∧
        (0 ≤ minor.intVal ↔
          (fixture.swap.PgMajFault ≤ fixture.swap.PgFault ∧
            fixture.swap.PgFault - fixture.swap.PgMajFault < 2 ^ 63) ∨
            fixture.swap.PgFault + 2 ^ 63 < fixture.swap.PgMajFault) :=
  ⟨⟨by decide, by decide⟩, faults_minor_nonneg 7 9 fixture.swap (by decide) (by decide)⟩

/-! ## Order of the metrics -/

theorem scrape_metric_names (s : scraper) (t₁ t₂ : Time) :
    (s.scrape t₁ t₂).metrics.map (fun m => m.name) =
      (match s.getPageFileStats () with
        | .ok _ => ["paging usage"]
        | .error _ => []) ++
      (match s.swapMemory () with
        | .ok _ => ["paging operations", "page faults"]
        | .error _ => []) := by
  rw [scrape_metrics_eq]
  cases s.getPageFileStats () <;> cases s.swapMemory () <;> rfl

/-- C17: when both providers succeed, `scrape` returns exactly three metrics in the
order usage, operations, faults; in general the metrics are the usage metric when the
page-file provider succeeded, followed by the operations metric and right after it the
faults metric when the swap provider succeeded, so the names read usage, operations,
faults; or operations, faults; or usage; or nothing. -/
theorem scrape_metric_order (s : scraper) (t₁ t₂ : Time) :
    (∀ ps swap, s.getPageFileStats () = .ok ps → s.swapMemory () = .ok swap →
        (s.scrape t₁ t₂).metrics.length = 3 ∧
        (s.scrape t₁ t₂).metrics.map (fun m => m.name) =
          ["paging usage", "paging operations", "page faults"]) ∧
      ((s.scrape t₁ t₂).metrics.map (fun m => m.name) =
          ["paging usage", "paging operations", "page faults"] ∨
        (s.scrape t₁ t₂).metrics.map (fun m => m.name) =
          ["paging operations", "page faults"] ∨
        (s.scrape t₁ t₂).metrics.map (fun m => m.name) = ["paging usage"] ∨
        (s.scrape t₁ t₂).metrics.map (fun m => m.name) = []) := by
  constructor
  · intro ps swap hp hs
    rw [scrape_ok_ok s t₁ t₂ ps swap hp hs]
    exact ⟨rfl, rfl⟩
  · rw [scrape_metric_names]
    cases s.getPageFileStats () <;> cases s.swapMemory () <;> simp

/-- Witness of `scrape_metric_order` on the worked example. -/
theorem scrape_metric_order_witness :
    ((fixture.scraperWith (.ok fixture.pageFiles) (.ok fixture.swap)).scrape
        ⟨11⟩ ⟨12⟩).metrics.length = 3 ∧
      ((fixture.scraperWith (.ok fixture.pageFiles) (.ok fixture.swap)).scrape
        ⟨11⟩ ⟨12⟩).metrics.map (fun m => m.name) =
        ["paging usage", "paging operations", "page faults"] :=
  (scrape_metric_order (fixture.scraperWith (.ok fixture.pageFiles) (.ok fixture.swap))
    ⟨11⟩ ⟨12⟩).1 fixture.pageFiles fixture.swap rfl rfl

/-! ## Independence of the two sub-scrapes -/

theorem scrape_pagingGroup (s : scraper) (t₁ t₂ : Time) :
    (s.scrape t₁ t₂).pagingGroup =
      (match s.swapMemory () with
        | .ok swap =>
          ([initializePagingOperationsMetric Metric.empty s.startTime
              (NewTimestampFromTime t₂) swap,
            initializePageFaultsMetric Metric.empty s.startTime
              (NewTimestampFromTime t₂) swap], [])
        | .error e => ([], [{ err := e, Failed := 2 }])) := by
  cases hp : s.getPageFileStats () with
  | error e₁ =>
    cases hs : s.swapMemory () with
    | error e₂ =>
      rw [scrape_error_error s t₁ t₂ e₁ e₂ hp hs]
      simp [scrapeResult.pagingGroup, pagingMetricsLen]
    | ok swap =>
      rw [scrape_error_ok s t₁ t₂ e₁ swap hp hs]
      simp [scrapeResult.pagingGroup, pagingMetricsLen, operations_metric_name,
        faults_metric_name]
  | ok ps =>
    cases hs : s.swapMemory () with
    | error e₂ =>
      rw [scrape_ok_error s t₁ t₂ ps e₂ hp hs]
      simp [scrapeResult.pagingGroup, pagingMetricsLen, usage_metric_name]
    | ok swap =>
      rw [scrape_ok_ok s t₁ t₂ ps swap hp hs]
      simp [scrapeResult.pagingGroup, pagingMetricsLen, operations_metric_name,
        faults_metric_name, usage_metric_name, scrapererror.ScrapeErrors.zero]

theorem scrape_usageGroup (s : scraper) (t₁ t₂ : Time) :
    (s.scrape t₁ t₂).usageGroup =
      (match s.getPageFileStats () with
        | .ok ps =>
          ([initializePagingUsageMetric Metric.empty (NewTimestampFromTime t₁) ps], [])
        | .error e => ([], [{ err := e, Failed := 1 }])) := by
  cases hp : s.getPageFileStats () with
  | error e₁ =>
    cases hs : s.swapMemory () with
    | error e₂ =>
      rw [scrape_error_error s t₁ t₂ e₁ e₂ hp hs]
      simp [scrapeResult.usageGroup, pagingUsageMetricsLen]
    | ok swap =>
      rw [scrape_error_ok s t₁ t₂ e₁ swap hp hs]
      simp [scrapeResult.usageGroup, pagingUsageMetricsLen, operations_metric_name,
        faults_metric_name]
  | ok ps =>
    cases hs : s.swapMemory () with
    | error e₂ =>
      rw [scrape_ok_error s t₁ t₂ ps e₂ hp hs]
      simp [scrapeResult.usageGroup, pagingUsageMetricsLen, usage_metric_name]
    | ok swap =>
      rw [scrape_ok_ok s t₁ t₂ ps swap hp hs]
      simp [scrapeResult.usageGroup, pagingUsageMetricsLen, operations_metric_name,
        faults_metric_name, usage_metric_name, scrapererror.ScrapeErrors.zero]

/-- C18: two runs of `scrape` with the same reference start time, the same clock
reading of the paging sub-scrape and the same swap-provider outcome return the same
operations and faults metrics and record the same swap failure, whatever the two
page-file provider outcomes and usage clock readings are; and two runs with the same
usage clock reading and page-file provider outcome return the same usage metric and
record the same page-file failure, whatever the swap-provider outcomes, start times
and paging clock readings are. -/
theorem subscrapes_independent (s₁ s₂ : scraper) (t₁ t₂ u₁ u₂ : Time) :
    (s₁.startTime = s₂.startTime → t₂ = u₂ → s₁.swapMemory () = s₂.swapMemory () →
        (s₁.scrape t₁ t₂).pagingGroup = (s₂.scrape u₁ u₂).pagingGroup) ∧
      (t₁ = u₁ → s₁.getPageFileStats () = s₂.getPageFileStats () →
        (s₁.scrape t₁ t₂).usageGroup = (s₂.scrape u₁ u₂).usageGroup) := by
  constructor
  · intro hst ht hsw
    rw [scrape_pagingGroup, scrape_pagingGroup, hst, ht, hsw]
  · intro ht hpf
    rw [scrape_usageGroup, scrape_usageGroup, ht, hpf]

/-- Witness of `subscrapes_independent`: the page-file provider succeeding in one run
and failing in the other leaves the paging group the same; the swap provider
succeeding in one run and failing in the other leaves the usage group the same. -/
theorem subscrapes_independent_witness :
    ((fixture.scraperWith (.ok fixture.pageFiles) (.ok fixture.swap)).scrape
        ⟨11⟩ ⟨12⟩).pagingGroup =
      ((fixture.scraperWith (.error ⟨"no page files"⟩) (.ok fixture.swap)).scrape
        ⟨21⟩ ⟨12⟩).pagingGroup ∧
    ((fixture.scraperWith (.ok fixture.pageFiles) (.ok fixture.swap)).scrape
        ⟨11⟩ ⟨12⟩).usageGroup =
      ((fixture.scraperWith (.ok fixture.pageFiles) (.error ⟨"no swap"⟩)).scrape
        ⟨11⟩ ⟨22⟩).usageGroup :=
  ⟨(subscrapes_independent
      (fixture.scraperWith (.ok fixture.pageFiles) (.ok fixture.swap))
      (fixture.scraperWith (.error ⟨"no page files"⟩) (.ok fixture.swap))
      ⟨11⟩ ⟨12⟩ ⟨21⟩ ⟨12⟩).1 rfl rfl rfl,
    (subscrapes_independent
      (fixture.scraperWith (.ok fixture.pageFiles) (.ok fixture.swap))
      (fixture.scraperWith (.ok fixture.pageFiles) (.error ⟨"no swap"⟩))
      ⟨11⟩ ⟨12⟩ ⟨11⟩ ⟨22⟩).2 rfl rfl⟩

/-! ## Boot time in nanoseconds -/

/-- C19: when the boot-time provider succeeds with `bootTime`, `start` returns no error
and sets the reference start time to `bootTime * 10 ^ 9` in `uint64` arithmetic, that
is `(bootTime * 10 ^ 9) mod 2 ^ 64`; it is the exact product for every
`bootTime < 2 ^ 64 / 10 ^ 9`, and more precisely exactly when the product is below
`2 ^ 64`. -/
theorem start_sets_nanoseconds (s : scraper) (bootTime : Nat)
    (h : s.bootTime () = .ok bootTime) :
    s.start.2 = none ∧
      s.start.1.startTime = (bootTime * 10 ^ 9) % 2 ^ 64 ∧
      (bootTime < 2 ^ 64 / 10 ^ 9 → s.start.1.startTime = bootTime * 10 ^ 9) ∧
      (s.start.1.startTime = bootTime * 10 ^ 9 ↔ bootTime * 10 ^ 9 < 2 ^ 64) := by
  have hst : s.start.1.startTime = (bootTime * 10 ^ 9) % 2 ^ 64 := by
    simp [scraper.start, h, uint64Mul]
  refine ⟨by simp [scraper.start, h], hst, ?_, ?_⟩
  · intro hb
    rw [hst]
    apply Nat.mod_eq_of_lt
    norm_num at hb ⊢
    omega
  · rw [hst]
    constructor
    · intro heq
      have hlt := Nat.mod_lt (bootTime * 10 ^ 9) (by norm_num : 2 ^ 64 > 0)
      exact lt_of_eq_of_lt heq.symm hlt
    · intro hlt
      exact Nat.mod_eq_of_lt hlt

/-- Witness of `start_sets_nanoseconds`: a boot time of 18446744074 seconds, the first
whose product with `10 ^ 9` reaches `2 ^ 64`, sets the start time to 290448384. -/
theorem start_sets_nanoseconds_witness :
    (scraper.mk ⟨0⟩ 7 (fun _ => .ok 18446744074) (fun _ => .ok [])
        (fun _ => .ok fixture.swap)).bootTime () = .ok 18446744074 ∧
      (scraper.mk ⟨0⟩ 7 (fun _ => .ok 18446744074) (fun _ => .ok [])
        (fun _ => .ok fixture.swap)).start.1.startTime = (18446744074 * 10 ^ 9) % 2 ^ 64 ∧
      (18446744074 * 10 ^ 9) % 2 ^ 64 = 290448384 :=
  ⟨rfl,
    (start_sets_nanoseconds (scraper.mk ⟨0⟩ 7 (fun _ => .ok 18446744074) (fun _ => .ok [])
      (fun _ => .ok fixture.swap)) 18446744074 rfl).2.1,
    by norm_num⟩

/-! ## Values as signed reinterpretations -/

/-- C20: every data-point value built from a provider counter is the `int64`
conversion of that `uint64` counter, for the usage metric (`usedBytes`, `freeBytes`,
`cachedBytes` when present), the operations metric (`sin`, `sout`, `pgIn`, `pgOut`)
and the major point of the faults metric (`pgMajFault`); one value per counter is
emitted, none is dropped or clamped; and for every counter `c < 2 ^ 64` the conversion
is `c` when `c < 2 ^ 63` and the negative number `c - 2 ^ 64` when `c ≥ 2 ^ 63`. -/
theorem values_are_int64_reinterpretations (startTime now : Timestamp)
    (ps : List pageFileStats) (swap : SwapMemoryStat) :
    (initializePagingUsageMetric Metric.empty now ps).dataPoints.map (fun p => p.intVal) =
        ps.flatMap usageDeviceValues ∧
      (initializePagingOperationsMetric Metric.empty startTime now swap).dataPoints.map
        (fun p => p.intVal) =
          [int64 swap.Sin, int64 swap.Sout, int64 swap.PgIn, int64 swap.PgOut] ∧
      ((initializePageFaultsMetric Metric.empty startTime now swap).dataPoints.map
        (fun p => p.intVal)).head? = some (int64 swap.PgMajFault) ∧
      (∀ c : Nat, c < 2 ^ 64 →
        (c < 2 ^ 63 → int64 c = (c : Int)) ∧
        (2 ^ 63 ≤ c → int64 c = (c : Int) - 2 ^ 64 ∧ int64 c < 0)) := by
  refine ⟨?_, rfl, rfl, ?_⟩
  · rw [usage_metric_dataPoints]
    exact map_flatMap_loopBody now _ _ (loopBody_values now) ps
  · intro c hc
    unfold int64
    rw [Nat.mod_eq_of_lt hc]
    constructor
    · intro h; rw [if_pos h]
    · intro h
      rw [if_neg (by omega)]
      omega

/-- Witness of `values_are_int64_reinterpretations`: the counter `2 ^ 64 - 1` is
emitted as `-1` and the counter 100 as 100. -/
theorem values_are_int64_reinterpretations_witness :
    (int64 100 = 100) ∧ (int64 (2 ^ 64 - 1) = ((2 ^ 64 - 1 : Nat) : Int) - 2 ^ 64 ∧
      int64 (2 ^ 64 - 1) < 0) :=
  ⟨((values_are_int64_reinterpretations 0 0 [] fixture.swap).2.2.2 100 (by decide)).1
      (by decide),
    ((values_are_int64_reinterpretations 0 0 [] fixture.swap).2.2.2 (2 ^ 64 - 1)
      (by decide)).2 (by decide)⟩

end pagingscraper
